import Mathlib

/-!
A shallow embedding of the signature-based trust and authorization subsystem
of the TumCampusApp chat backend (Django project `tca`), together with proofs
of its specified properties.

The embedding follows the source files:
  * `tca/chat/crypto.py`   — RSA signature verification (`verify`);
  * `tca/chat/models.py`   — `Member`, `PublicKey`, `PublicKeyConfirmation`,
    `Message`, `SystemMessage` and their validation methods;
  * `tca/chat/views.py`    — the signature-validation view mixins and the
    join/leave-room, registration-id and key-confirmation endpoints.

External collaborators (the PyCrypto primitives, the database) are modelled
as explicit parameters: the cryptographic library is a structure of oracle
functions in which a Python exception is an `Option`/`none` result, and
persistence is explicit state passing over lists of records.  Functions that
Python would let raise are total here exactly because every exception path
in the source is caught and collapsed to a return value.
-/

namespace TCA

/-! ## Data model (`tca/chat/models.py`) -/

/-- A member's public key (`models.PublicKey`): key material plus the
`active` flag (default `False`). -/
structure PublicKey where
  key_text : String
  active : Bool
deriving Repr, DecidableEq

/-- A chat member (`models.Member`): unique `lrz_id`, display name, a JSON
list of device registration ids, and the reverse relation `public_keys`. -/
structure Member where
  lrz_id : String
  display_name : String
  registration_ids : List String
  public_keys : List PublicKey
deriving Repr, DecidableEq

/-- The keys considered by signature validation:
`member.public_keys.filter(active=True)`. -/
def activeKeysFor (m : Member) : List PublicKey :=
  m.public_keys.filter (·.active)

/-! ## `crypto.verify` (`tca/chat/crypto.py`)

The PyCrypto calls are abstracted as oracles over an abstract imported-key
type `K`.  A call that raises an exception in Python is an oracle returning
`none`; every such path is caught by a `try/except` in the source and turned
into `False`. -/

/-- The cryptographic collaborators used by `crypto.verify`:
`base64.decodestring`, `RSA.importKey`, `SHA.new().update()`/digest, and
`PKCS1_v1_5.new(key).verify`.  A `none` result models a raised exception;
`utf8` models `unicode.encode('utf-8')`, which is total. -/
structure CryptoLib (K : Type) where
  decodestring : String → Option (List Nat)
  importKey : List Nat → Option K
  shaNew : List Nat → List Nat
  pkcsVerify : K → List Nat → List Nat → Option Bool
  utf8 : String → List Nat

/-- `base64.decodestring` applied to a possibly-`None` Python value: calling
it on `None` raises (`none`), which the source's bare `except` catches. -/
def decodeOpt {K : Type} (lib : CryptoLib K) : Option String → Option (List Nat)
  | none => none
  | some s => lib.decodestring s

/-- Shallow embedding of `crypto.verify(message, signature, public_key)`.

Control flow of the source: an explicit `None` check on `message`; a
`try/except` around base64-decoding the signature and the public key; a
`try/except` around `RSA.importKey`; the SHA-1 digest of the UTF-8 encoded
message; and a final `try/except` around the PKCS#1 v1.5 check.  Every
caught exception returns `False`. -/
def cryptoVerify {K : Type} (lib : CryptoLib K) :
    Option String → Option String → Option String → Bool
  | none, _, _ => false
  | some message, signature, public_key =>
    let m := lib.utf8 message
    match decodeOpt lib signature, decodeOpt lib public_key with
    | some sigBytes, some keyBytes =>
      match lib.importKey keyBytes with
      | none => false
      | some key =>
        let h := lib.shaNew m
        match lib.pkcsVerify key h sigBytes with
        | none => false
        | some b => b
    | _, _ => false

/-- A concrete cryptographic library whose decoder rejects every input,
used to evaluate the fail-closed theorem at explicit inputs. -/
def rejectLib : CryptoLib Unit where
  decodestring _ := none
  importKey _ := none
  shaNew bs := bs
  pkcsVerify _ _ _ := some false
  utf8 _ := []

/-- C2: `crypto.verify` is fail-closed: `false` on an absent message; `false`
whenever the signature or public key is absent, fails base64 decoding, or the
key fails to parse; `false` whenever the cryptographic check itself raises;
and on the fully successful path it returns exactly the verifier's boolean.
Totality of `cryptoVerify` (a `Bool`-valued function) captures that `verify`
never propagates an exception to its caller. -/
theorem crypto_verify_fail_closed {K : Type} (lib : CryptoLib K) :
    (∀ s k, cryptoVerify lib none s k = false)
    ∧ (∀ m k, cryptoVerify lib (some m) none k = false)
    ∧ (∀ m s, cryptoVerify lib (some m) s none = false)
    ∧ (∀ m s k, lib.decodestring s = none →
        cryptoVerify lib (some m) (some s) k = false)
    ∧ (∀ m s k, lib.decodestring k = none →
        cryptoVerify lib (some m) s (some k) = false)
    ∧ (∀ m s k ds dk, lib.decodestring s = some ds → lib.decodestring k = some dk →
        lib.importKey dk = none →
        cryptoVerify lib (some m) (some s) (some k) = false)
    ∧ (∀ m s k ds dk key, lib.decodestring s = some ds → lib.decodestring k = some dk →
        lib.importKey dk = some key →
        lib.pkcsVerify key (lib.shaNew (lib.utf8 m)) ds = none →
        cryptoVerify lib (some m) (some s) (some k) = false)
    ∧ (∀ m s k ds dk key b, lib.decodestring s = some ds → lib.decodestring k = some dk →
        lib.importKey dk = some key →
        lib.pkcsVerify key (lib.shaNew (lib.utf8 m)) ds = some b →
        cryptoVerify lib (some m) (some s) (some k) = b) := by
  refine ⟨fun s k => rfl, fun m k => ?_, fun m s => ?_, fun m s k hs => ?_,
    fun m s k hk => ?_, fun m s k ds dk hs hk hi => ?_,
    fun m s k ds dk key hs hk hi hv => ?_,
    fun m s k ds dk key b hs hk hi hv => ?_⟩
  · cases k with
    | none => rfl
    | some kv => simp [cryptoVerify, decodeOpt]
  · cases s with
    | none => rfl
    | some sv => simp only [cryptoVerify, decodeOpt]; cases lib.decodestring sv <;> rfl
  · cases k with
    | none => simp [cryptoVerify, decodeOpt, hs]
    | some kv => simp [cryptoVerify, decodeOpt, hs]
  · cases s with
    | none => rfl
    | some sv => simp [cryptoVerify, decodeOpt, hk]
  · simp [cryptoVerify, decodeOpt, hs, hk, hi]
  · simp [cryptoVerify, decodeOpt, hs, hk, hi, hv]
  · simp [cryptoVerify, decodeOpt, hs, hk, hi, hv]

/-- Witness for C2: the fail-closed theorem evaluated on a concrete library
and concrete malformed inputs. -/
theorem crypto_verify_fail_closed_witness :
    cryptoVerify rejectLib (some "hello") (some "c2ln") (some "a2V5") = false :=
  (crypto_verify_fail_closed rejectLib).2.2.2.1 "hello" "c2ln" (some "a2V5") rfl

/-! ## Signature-validation view mixin (`tca/chat/views.py`)

`SignatureValidationAPIViewMixin.validate_signature` and its member-based
specialisation.  At this layer `crypto.verify` is abstracted as an oracle
`verify : String → String → String → Bool` (it is only ever called with
non-`None` strings here, since the mixin short-circuits before calling it).
To make the "how many keys were consulted" part of the specification
expressible, the embedding also counts the `crypto.verify` calls made. -/

/-- The generator-expression `any(crypto.verify(message, signature, key) for
key in keys)`, together with the number of `crypto.verify` calls it makes:
Python's `any` over a generator stops at the first `True`. -/
def verifyAnyCount (f : String → Bool) : List String → Bool × Nat
  | [] => (false, 0)
  | k :: ks =>
    if f k then (true, 1)
    else
      let r := verifyAnyCount f ks
      (r.1, r.2 + 1)

/-- Embedding of `SignatureValidationAPIViewMixin.validate_signature`,
instrumented with the number of `crypto.verify` calls.  `message` and
`signature` are the possibly-absent request fields; `if not message or not
signature: return False` treats both `None` and the empty string as falsy. -/
def validate_signature_count (verify : String → String → String → Bool)
    (message signature : Option String) (keys : List String) : Bool × Nat :=
  match message, signature with
  | some m, some s =>
    if m.isEmpty || s.isEmpty then (false, 0)
    else verifyAnyCount (verify m s) keys
  | _, _ => (false, 0)

/-- The boolean result of `validate_signature` (what the views branch on). -/
def validate_signature (verify : String → String → String → Bool)
    (message signature : Option String) (keys : List String) : Bool :=
  (validate_signature_count verify message signature keys).1

/-- `MemberBasedSignatureValidationMixin`: the message to validate is the
member's `lrz_id` and the keys are the texts of the member's active keys. -/
def member_validate_signature (verify : String → String → String → Bool)
    (member : Member) (signature : Option String) : Bool :=
  validate_signature verify (some member.lrz_id) signature
    ((activeKeysFor member).map (·.key_text))

theorem verifyAnyCount_fst (f : String → Bool) (ks : List String) :
    (verifyAnyCount f ks).1 = ks.any f := by
  induction ks with
  | nil => rfl
  | cons k ks ih =>
    simp only [verifyAnyCount, List.any_cons]
    by_cases h : f k <;> simp [h, ih]

theorem verifyAnyCount_snd (f : String → Bool) (ks : List String) :
    (verifyAnyCount f ks).2 =
      (ks.takeWhile (fun k => !f k)).length + (if ks.any f then 1 else 0) := by
  induction ks with
  | nil => rfl
  | cons k ks ih =>
    by_cases h : f k
    · simp [verifyAnyCount, List.takeWhile, h]
    · have h' : f k = false := by simpa using h
      simp only [verifyAnyCount, List.any_cons, List.takeWhile, h', Bool.false_or,
        Bool.not_false, if_true, Bool.false_eq_true, if_false, ih, List.length_cons]
      omega

/-- C1: the authorization check of the view mixin, over the member's active
keys.  (i) If the payload or the signature is absent or empty it returns
`false` with zero `crypto.verify` calls.  (ii) Otherwise its boolean equals
"some active key verifies", and the number of `crypto.verify` calls is the
number of failing keys before the first success, plus one for the success
(so evaluation stops at the first success); in particular with zero active
keys, or when every active key fails — regardless of how `verify` behaves
on inactive keys — the result is `false`. -/
theorem member_signature_authorization (verify : String → String → String → Bool)
    (member : Member) (payload signature : Option String) :
    ((payload = none ∨ payload = some "" ∨ signature = none ∨ signature = some "") →
      validate_signature_count verify payload signature
        ((activeKeysFor member).map (·.key_text)) = (false, 0))
    ∧ (∀ m s, payload = some m → signature = some s → m ≠ "" → s ≠ "" →
        (validate_signature_count verify payload signature
            ((activeKeysFor member).map (·.key_text)) =
          (((activeKeysFor member).map (·.key_text)).any (verify m s),
           (((activeKeysFor member).map (·.key_text)).takeWhile
              (fun k => !verify m s k)).length
             + (if ((activeKeysFor member).map (·.key_text)).any (verify m s)
                then 1 else 0))))
    ∧ (∀ m s, payload = some m → signature = some s →
        (∀ pk ∈ member.public_keys, pk.active = true → verify m s pk.key_text = false) →
        validate_signature verify payload signature
          ((activeKeysFor member).map (·.key_text)) = false) := by
  have hempty : ("" : String).isEmpty = true := rfl
  refine ⟨fun h => ?_, fun m s hp hs hm hsne => ?_, fun m s hp hs hfail => ?_⟩
  · rcases h with h | h | h | h <;> subst h
    · cases signature <;> rfl
    · cases signature with
      | none => rfl
      | some s => simp [validate_signature_count, hempty]
    · cases payload <;> rfl
    · cases payload with
      | none => rfl
      | some m => simp [validate_signature_count, hempty]
  · subst hp; subst hs
    simp only [validate_signature_count]
    rw [if_neg]
    · exact Prod.ext (verifyAnyCount_fst _ _) (verifyAnyCount_snd _ _)
    · simp [String.isEmpty_iff, hm, hsne]
  · subst hp; subst hs
    simp only [validate_signature, validate_signature_count]
    by_cases he : (m.isEmpty || s.isEmpty) = true
    · simp [he]
    · rw [if_neg he, verifyAnyCount_fst, List.any_eq_false]
      intro k hk
      rw [List.mem_map] at hk
      obtain ⟨pk, hpk, rfl⟩ := hk
      have hmem : pk ∈ member.public_keys ∧ pk.active = true := by
        simpa [activeKeysFor, List.mem_filter] using hpk
      simp [hfail pk hmem.1 hmem.2]

/-- A concrete member with one active and one inactive key, used to evaluate
the theorems at explicit inputs. -/
def exMember : Member where
  lrz_id := "ab12345"
  display_name := "Alice"
  registration_ids := []
  public_keys := [⟨"KEY-ACTIVE", true⟩, ⟨"KEY-INACTIVE", false⟩]

/-- A concrete `crypto.verify` oracle that accepts exactly the signature
"SIG" over the payload "ab12345" under either of `exMember`'s key texts. -/
def exVerify (m s k : String) : Bool :=
  m == "ab12345" && s == "SIG" && (k == "KEY-ACTIVE" || k == "KEY-INACTIVE")

/-- Witness for C1: at concrete inputs, an absent signature makes zero
verify calls, and a matching signature is accepted with exactly one call. -/
theorem member_signature_authorization_witness :
    validate_signature_count exVerify (some "ab12345") none
        ((activeKeysFor exMember).map (·.key_text)) = (false, 0)
    ∧ validate_signature_count exVerify (some "ab12345") (some "SIG")
        ((activeKeysFor exMember).map (·.key_text)) = (true, 1) := by
  constructor
  · exact (member_signature_authorization exVerify exMember (some "ab12345") none).1
      (Or.inr (Or.inr (Or.inl rfl)))
  · have h := (member_signature_authorization exVerify exMember
      (some "ab12345") (some "SIG")).2.1 "ab12345" "SIG" rfl rfl
      (by decide) (by decide)
    rw [h]
    decide

/-! ## Messages and their validation (`models.Message`) -/

/-- A chat message (`models.Message`): text, owning member, owning chat room
(by id), creation timestamp, signature (blank allowed), and the `valid` flag
(default `False`). -/
structure Message where
  text : String
  member : Member
  chat_room : Nat
  timestamp : Int
  signature : String
  valid : Bool
deriving Repr, DecidableEq

/-- Embedding of the `Message.valid_signature` property: loop over the
member's keys filtered by `active=True`, returning `True` on the first key
for which `crypto.verify(self.text, self.signature, pubkey.key_text)`
succeeds, else `False`. -/
def Message.valid_signature (verify : String → String → String → Bool)
    (msg : Message) : Bool :=
  (activeKeysFor msg.member).any (fun pk => verify msg.text msg.signature pk.key_text)

/-- Embedding of `Message.validate_signature`, returning the boolean result,
the message as mutated, and whether `self.save()` was called.  Source: if
`self.valid_signature` holds, set `valid = True`, save, return `True`;
otherwise set `valid = False` and save only when it was `True`, and return
`False`. -/
def Message.validate_signature (verify : String → String → String → Bool)
    (msg : Message) : Bool × Message × Bool :=
  if msg.valid_signature verify then
    (true, { msg with valid := true }, true)
  else if msg.valid then
    (false, { msg with valid := false }, true)
  else
    (false, msg, false)

/-- Updating only the `valid` flag does not change what the signature check
sees (it reads `text`, `signature` and `member` only). -/
theorem valid_signature_update (verify : String → String → String → Bool)
    (msg : Message) (b : Bool) :
    Message.valid_signature verify { msg with valid := b } =
      Message.valid_signature verify msg := rfl

/-- A `crypto.verify` oracle accepting exactly signature "SIG" on text
"hello" under the key text "KEY-ACTIVE". -/
def exMsgVerify (m s k : String) : Bool :=
  m == "hello" && s == "SIG" && k == "KEY-ACTIVE"

/-- A message by `exMember` whose `valid` flag is already `true` and whose
signature validates under the member's active key. -/
def exMessage : Message where
  text := "hello"
  member := exMember
  chat_room := 1
  timestamp := 0
  signature := "SIG"
  valid := true

/-- Counterexample to C4 as stated: re-validating `exMessage`, whose `valid`
flag is already correct (`true`, and its signature validates), still calls
`save()` — the persisted-only-when-`valid`-changes part of the claim fails,
because the valid branch of the source saves unconditionally. -/
theorem message_revalidation_write_cex :
    ¬ ((Message.validate_signature exMsgVerify exMessage).2.2 = true →
        (Message.validate_signature exMsgVerify exMessage).2.1.valid ≠
          exMessage.valid) := by decide

/-- C4 as amended: `validate_signature` returns the validity boolean and sets
`valid` to exactly that boolean, leaving every other field unchanged; it
saves on every call when the signature is valid (even when `valid` was
already `true`), and in the invalid case it saves exactly when `valid`
changes from `true` to `false`; a second call on the result returns the same
boolean and leaves the message unchanged (no toggling). -/
theorem message_validate_signature_spec (verify : String → String → String → Bool)
    (msg : Message) :
    ((Message.validate_signature verify msg).1 = msg.valid_signature verify)
    ∧ ((Message.validate_signature verify msg).2.1.valid =
        (Message.validate_signature verify msg).1)
    ∧ ((Message.validate_signature verify msg).2.1.text = msg.text
        ∧ (Message.validate_signature verify msg).2.1.member = msg.member
        ∧ (Message.validate_signature verify msg).2.1.signature = msg.signature
        ∧ (Message.validate_signature verify msg).2.1.chat_room = msg.chat_room
        ∧ (Message.validate_signature verify msg).2.1.timestamp = msg.timestamp)
    ∧ ((Message.validate_signature verify msg).2.2 =
        (msg.valid_signature verify || msg.valid))
    ∧ ((Message.validate_signature verify
          (Message.validate_signature verify msg).2.1).1 =
        (Message.validate_signature verify msg).1)
    ∧ ((Message.validate_signature verify
          (Message.validate_signature verify msg).2.1).2.1 =
        (Message.validate_signature verify msg).2.1) := by
  by_cases hv : msg.valid_signature verify = true
  · simp [Message.validate_signature, hv, valid_signature_update]
  · have hv' : msg.valid_signature verify = false := by simpa using hv
    by_cases hb : msg.valid = true
    · simp [Message.validate_signature, hv', hb, valid_signature_update]
    · have hb' : msg.valid = false := by simpa using hb
      simp [Message.validate_signature, hv', hb', valid_signature_update]

/-! ## System messages (`models.SystemMessage`) -/

/-- The fixed `lrz_id` of `SystemMessage._bot_description`. -/
def bot_lrz_id : String := "bot"

/-- The fixed `display_name` of `SystemMessage._bot_description`. -/
def bot_display_name : String := "Bot"

/-- `SystemMessage.get_bot_user`:
`Member.objects.get_or_create(display_name="Bot", lrz_id="bot")` over an
explicit member table — the first member matching both fields, or a freshly
created one with those fields and the model defaults for the rest. -/
def get_bot_user (db : List Member) : Member × List Member :=
  match db.find? (fun m => m.display_name == bot_display_name
      && m.lrz_id == bot_lrz_id) with
  | some m => (m, db)
  | none =>
    let bot : Member :=
      { lrz_id := bot_lrz_id, display_name := bot_display_name,
        registration_ids := [], public_keys := [] }
    (bot, db ++ [bot])

/-- `SystemMessage.set_default_values`: force `valid = True` and the member
field to the bot user, on top of whatever the caller supplied. -/
def SystemMessage.set_default_values (bot : Member) (msg : Message) : Message :=
  { msg with valid := true, member := bot }

/-- `SystemMessage.__init__`: ordinary `Message` initialisation from the
caller's field values followed by `set_default_values`; the member table may
grow by the bot member (get-or-create). -/
def SystemMessage.init (db : List Member) (msg : Message) : Message × List Member :=
  (SystemMessage.set_default_values (get_bot_user db).1 msg, (get_bot_user db).2)

/-- `SystemMessage.save`: `set_default_values` again, then the ordinary save,
modelled as appending the stored row to the message table. -/
def SystemMessage.save (db : List Member) (store : List Message) (msg : Message) :
    Message × List Message × List Member :=
  (SystemMessage.set_default_values (get_bot_user db).1 msg,
   store ++ [SystemMessage.set_default_values (get_bot_user db).1 msg],
   (get_bot_user db).2)

/-- The member returned by the bot get-or-create always carries the fixed
bot identifier and display name, whether it was found or created. -/
theorem get_bot_user_fields (db : List Member) :
    (get_bot_user db).1.lrz_id = bot_lrz_id
    ∧ (get_bot_user db).1.display_name = bot_display_name := by
  unfold get_bot_user
  cases hf : db.find? (fun m => m.display_name == bot_display_name
      && m.lrz_id == bot_lrz_id) with
  | none => exact ⟨rfl, rfl⟩
  | some m =>
    have hp := List.find?_some hf
    simp only [Bool.and_eq_true, beq_iff_eq] at hp
    exact ⟨hp.2, hp.1⟩

/-- C6: on construction and on every save, a `SystemMessage` has `valid`
forced to `true` and `member` forced to the bot member obtained by
get-or-create with the fixed identifier (`lrz_id = "bot"`), regardless of the
caller-supplied `valid` and `member` values; the remaining caller-supplied
fields are kept, and the saved row is exactly the forced message. -/
theorem system_message_forced_defaults (db : List Member) (store : List Message)
    (msg : Message) :
    ((SystemMessage.init db msg).1.valid = true
      ∧ (SystemMessage.init db msg).1.member = (get_bot_user db).1)
    ∧ ((SystemMessage.save db store msg).1.valid = true
      ∧ (SystemMessage.save db store msg).1.member = (get_bot_user db).1
      ∧ (SystemMessage.save db store msg).2.1 =
          store ++ [(SystemMessage.save db store msg).1])
    ∧ ((get_bot_user db).1.lrz_id = bot_lrz_id
      ∧ (get_bot_user db).1.display_name = bot_display_name)
    ∧ ((SystemMessage.init db msg).1.text = msg.text
      ∧ (SystemMessage.init db msg).1.signature = msg.signature
      ∧ (SystemMessage.init db msg).1.chat_room = msg.chat_room) :=
  ⟨⟨rfl, rfl⟩, ⟨rfl, rfl, rfl⟩, get_bot_user_fields db, rfl, rfl, rfl⟩

/-! ## View endpoints (`tca/chat/views.py`) -/

/-- The HTTP responses produced by the guarded endpoints. -/
inductive Response where
  | ok (body : String)
  | badRequest
  | forbidden (body : String)
  | notFound
  | unprocessable
deriving Repr, DecidableEq

/-- The HTTP status code of each response
(200 / 400 / 403 / 404 / `HTTP_422_UNPROCESSABLE_ENTITY`). -/
def Response.status_code : Response → Nat
  | .ok _ => 200
  | .badRequest => 400
  | .forbidden _ => 403
  | .notFound => 404
  | .unprocessable => 422

/-- The state touched by the chat-room endpoints: the member table, the
target room's member set (by `lrz_id`) and the room's message table. -/
structure ChatState where
  members : List Member
  room_members : List String
  messages : List Message
deriving Repr, DecidableEq

/-- The body of a join/leave request: each field is `some` when present in
`request.DATA` (its value may still be the empty string). -/
structure JoinRequest where
  lrz_id : Option String
  signature : Option String
deriving Repr, DecidableEq

/-- `get_object_or_404(Member, lrz_id=...)` over the member table. -/
def findMember (db : List Member) (lrz : String) : Option Member :=
  db.find? (fun m => m.lrz_id == lrz)

/-- Django many-to-many `add`: set semantics, no duplicates. -/
def m2m_add (xs : List String) (x : String) : List String :=
  if x ∈ xs then xs else xs ++ [x]

/-- Django many-to-many `remove`: drop the relation if present. -/
def m2m_remove (xs : List String) (x : String) : List String :=
  xs.filter (fun y => y != x)

/-- Modelled from the spec: `SystemMessage.objects.create_member_joined`,
called by `ChatRoomViewSet.add_member`, is a manager method whose definition
is not among the sources (only its call site and mocked tests are).  The
spec says: "Join: add member to room's member set; also emit a system
message recording the join, attributed to the bot."  We model it as building
a `SystemMessage` recording the member's join in the given room and saving
it. -/
def create_member_joined (db : List Member) (store : List Message)
    (member : Member) (room : Nat) : Message × List Message × List Member :=
  let base : Message :=
    { text := member.lrz_id ++ " joined the chat room", member := member,
      chat_room := room, timestamp := 0, signature := "", valid := false }
  SystemMessage.save (SystemMessage.init db base).2 store
    (SystemMessage.init db base).1

/-- Modelled from the spec: `SystemMessage.objects.create_member_left`,
called by `ChatRoomViewSet.remove_member`, is likewise not among the
sources.  The spec says: "Leave: remove member from room's member set ...;
emit a system 'left' message." -/
def create_member_left (db : List Member) (store : List Message)
    (member : Member) (room : Nat) : Message × List Message × List Member :=
  let base : Message :=
    { text := member.lrz_id ++ " left the chat room", member := member,
      chat_room := room, timestamp := 0, signature := "", valid := false }
  SystemMessage.save (SystemMessage.init db base).2 store
    (SystemMessage.init db base).1

/-- Embedding of `ChatRoomViewSet.add_member`: 400 when `lrz_id` or
`signature` is missing from the request body; 404 when no member has the
given `lrz_id`; on a validating signature, add the member to the room's
member set, create the joined system message and answer 200
`{'status': 'success'}`; otherwise 403 `{'status': 'invalid signature'}`. -/
def add_member (verify : String → String → String → Bool) (st : ChatState)
    (room : Nat) (req : JoinRequest) : Response × ChatState :=
  match req.lrz_id, req.signature with
  | some lrz, some sig =>
    match findMember st.members lrz with
    | none => (Response.notFound, st)
    | some member =>
      if member_validate_signature verify member (some sig) then
        let r := create_member_joined st.members st.messages member room
        (Response.ok "success",
         { members := r.2.2,
           room_members := m2m_add st.room_members member.lrz_id,
           messages := r.2.1 })
      else (Response.forbidden "invalid signature", st)
  | _, _ => (Response.badRequest, st)

/-- Embedding of `ChatRoomViewSet.remove_member`, symmetric to
`add_member`. -/
def remove_member (verify : String → String → String → Bool) (st : ChatState)
    (room : Nat) (req : JoinRequest) : Response × ChatState :=
  match req.lrz_id, req.signature with
  | some lrz, some sig =>
    match findMember st.members lrz with
    | none => (Response.notFound, st)
    | some member =>
      if member_validate_signature verify member (some sig) then
        let r := create_member_left st.members st.messages member room
        (Response.ok "success",
         { members := r.2.2,
           room_members := m2m_remove st.room_members member.lrz_id,
           messages := r.2.1 })
      else (Response.forbidden "invalid signature", st)
  | _, _ => (Response.badRequest, st)

/-- A signature validating against one of the member's active keys makes the
member-based check succeed (given the non-empty payload and signature the
check's short-circuit requires). -/
theorem member_validate_signature_of_active
    (verify : String → String → String → Bool) (member : Member) (sig : String)
    (hlrz : member.lrz_id ≠ "") (hsig : sig ≠ "")
    (hkey : ∃ pk ∈ activeKeysFor member, verify member.lrz_id sig pk.key_text = true) :
    member_validate_signature verify member (some sig) = true := by
  obtain ⟨pk, hpk, hver⟩ := hkey
  simp only [member_validate_signature, validate_signature, validate_signature_count]
  rw [if_neg (by simp [String.isEmpty_iff, hlrz, hsig])]
  rw [verifyAnyCount_fst, List.any_eq_true]
  exact ⟨pk.key_text, List.mem_map_of_mem _ hpk, hver⟩

/-- Adding an element through the many-to-many `add` always leaves it in the
resulting set. -/
theorem mem_m2m_add (xs : List String) (x : String) : x ∈ m2m_add xs x := by
  unfold m2m_add
  by_cases h : x ∈ xs <;> simp [h]

/-- C3: a join-room request carrying both `lrz_id` and `signature`, where the
signature validates against one of the member's active keys, answers 200
`success`, adds the member to the room's member set, and records exactly one
new system message for that room — one that is valid and attributed to the
bot member. -/
theorem join_room_success (verify : String → String → String → Bool)
    (st : ChatState) (room : Nat) (lrz sig : String) (member : Member)
    (hfind : findMember st.members lrz = some member)
    (hlrz : member.lrz_id ≠ "") (hsig : sig ≠ "")
    (hkey : ∃ pk ∈ activeKeysFor member, verify member.lrz_id sig pk.key_text = true) :
    (add_member verify st room { lrz_id := some lrz, signature := some sig }).1 =
        Response.ok "success"
    ∧ (add_member verify st room { lrz_id := some lrz, signature := some sig
        }).1.status_code = 200
    ∧ member.lrz_id ∈
        (add_member verify st room { lrz_id := some lrz, signature := some sig
          }).2.room_members
    ∧ (∃ botMsg,
        (add_member verify st room { lrz_id := some lrz, signature := some sig
          }).2.messages = st.messages ++ [botMsg]
        ∧ botMsg.valid = true
        ∧ botMsg.member.lrz_id = bot_lrz_id
        ∧ botMsg.chat_room = room) := by
  have hval := member_validate_signature_of_active verify member sig hlrz hsig hkey
  refine ⟨?_, ?_, ?_, ?_⟩
  · simp [add_member, hfind, hval]
  · simp [add_member, hfind, hval, Response.status_code]
  · simp only [add_member, hfind, hval, if_true]
    exact mem_m2m_add _ _
  · simp only [add_member, hfind, hval, if_true]
    exact ⟨_, rfl, rfl, (get_bot_user_fields _).1, rfl⟩

/-- The chat-room state used to evaluate the join theorem: one member with an
active key, an empty room. -/
def exChatState : ChatState where
  members := [exMember]
  room_members := []
  messages := []

/-- Witness for C3: the join theorem evaluated on a concrete state and a
concrete validating request. -/
theorem join_room_success_witness :
    (add_member exVerify exChatState 1
        { lrz_id := some "ab12345", signature := some "SIG" }).1 =
      Response.ok "success"
    ∧ exMember.lrz_id ∈
        (add_member exVerify exChatState 1
          { lrz_id := some "ab12345", signature := some "SIG" }).2.room_members := by
  have h := join_room_success exVerify exChatState 1 "ab12345" "SIG" exMember
    (by decide) (by decide) (by decide) (by decide)
  exact ⟨h.1, h.2.2.1⟩

/-! ## Registration-id endpoints (`RegistrationIdAPIView` and subclasses) -/

/-- The body of an add/remove-registration-id request: each field is `some`
when present in `request.DATA`. -/
structure RegRequest where
  registration_id : Option String
  signature : Option String
deriving Repr, DecidableEq

/-- `AddRegistrationIdView.process`: append the registration id (duplicates
allowed) and save. -/
def add_registration_process (rid : String) (m : Member) : Member × Bool :=
  ({ m with registration_ids := m.registration_ids ++ [rid] }, true)

/-- Python's `list.remove`: delete the first matching occurrence. -/
def removeFirst : List String → String → List String
  | [], _ => []
  | x :: xs, y => if x == y then xs else x :: removeFirst xs y

/-- `RemoveRegistrationIdView.process`: `list.remove` wrapped in
`try/except ValueError` — when the id is absent the exception is swallowed
and no save happens; otherwise the member is saved. -/
def remove_registration_process (rid : String) (m : Member) : Member × Bool :=
  if rid ∈ m.registration_ids then
    ({ m with registration_ids := removeFirst m.registration_ids rid }, true)
  else (m, false)

/-- Embedding of `RegistrationIdAPIView.post`, parameterised by the
subclass's `process`: 422 (`HTTP_422_UNPROCESSABLE_ENTITY`) when
`registration_id` is missing from the request body; 403 when the signature
fails the member-based validation (which also covers an absent signature);
otherwise run `process` and answer 200 `{'status': 'ok'}`.  The result also
carries the member record as left by the request and whether
`member.save()` ran. -/
def registration_post (process : String → Member → Member × Bool)
    (verify : String → String → String → Bool) (member : Member)
    (req : RegRequest) : Response × Member × Bool :=
  match req.registration_id with
  | none => (Response.unprocessable, member, false)
  | some rid =>
    if member_validate_signature verify member req.signature then
      ((Response.ok "ok", (process rid member).1, (process rid member).2))
    else (Response.forbidden "invalid signature", member, false)

/-- `AddRegistrationIdView.post`. -/
def add_registration_id_post (verify : String → String → String → Bool)
    (member : Member) (req : RegRequest) : Response × Member × Bool :=
  registration_post add_registration_process verify member req

/-- `RemoveRegistrationIdView.post`. -/
def remove_registration_id_post (verify : String → String → String → Bool)
    (member : Member) (req : RegRequest) : Response × Member × Bool :=
  registration_post remove_registration_process verify member req

/-- Counterexample to C5 as stated: an add-registration-id request missing
its required `registration_id` field answers 422, not the claimed 400. -/
theorem registration_missing_field_cex :
    ¬ ((add_registration_id_post exVerify exMember
          { registration_id := none, signature := some "SIG" }).1.status_code = 400) := by
  decide

/-- C5 as amended.  Join-room and leave-room: a missing `lrz_id` or
`signature` field answers 400 with the state unchanged, and a present but
non-validating signature answers 403 with the state unchanged.
Add/remove-registration-id: a missing `registration_id` answers 422 with no
save and the member unchanged; a failing signature validation answers 403
with no save and the member unchanged; and an absent signature is one way
validation fails (so it also leads to 403, not 400). -/
theorem guarded_action_error_outcomes (verify : String → String → String → Bool)
    (st : ChatState) (room : Nat) (jreq : JoinRequest) (member : Member)
    (rreq : RegRequest) :
    ((jreq.lrz_id = none ∨ jreq.signature = none) →
      add_member verify st room jreq = (Response.badRequest, st)
      ∧ remove_member verify st room jreq = (Response.badRequest, st))
    ∧ (∀ lrz sig mem, jreq.lrz_id = some lrz → jreq.signature = some sig →
        findMember st.members lrz = some mem →
        member_validate_signature verify mem (some sig) = false →
        add_member verify st room jreq = (Response.forbidden "invalid signature", st)
        ∧ remove_member verify st room jreq =
            (Response.forbidden "invalid signature", st))
    ∧ (rreq.registration_id = none →
        add_registration_id_post verify member rreq =
          (Response.unprocessable, member, false)
        ∧ remove_registration_id_post verify member rreq =
            (Response.unprocessable, member, false))
    ∧ (∀ rid, rreq.registration_id = some rid →
        member_validate_signature verify member rreq.signature = false →
        add_registration_id_post verify member rreq =
          (Response.forbidden "invalid signature", member, false)
        ∧ remove_registration_id_post verify member rreq =
            (Response.forbidden "invalid signature", member, false))
    ∧ (rreq.signature = none →
        member_validate_signature verify member rreq.signature = false) := by
  obtain ⟨jl, js⟩ := jreq
  obtain ⟨rr, rs⟩ := rreq
  refine ⟨fun h => ?_, fun lrz sig mem hl hs hf hv => ?_, fun h => ?_,
    fun rid hr hv => ?_, fun h => ?_⟩
  · rcases h with h | h <;> subst h
    · exact ⟨rfl, rfl⟩
    · cases jl <;> exact ⟨rfl, rfl⟩
  · subst hl; subst hs
    constructor <;> simp [add_member, remove_member, hf, hv]
  · subst h
    exact ⟨rfl, rfl⟩
  · subst hr
    constructor <;>
      simp [add_registration_id_post, remove_registration_id_post,
        registration_post, hv]
  · subst h
    rfl

/-- Witness for C5 (amended): concrete malformed and forbidden requests with
their concrete outcomes. -/
theorem guarded_action_error_outcomes_witness :
    add_member exVerify exChatState 1 { lrz_id := none, signature := some "SIG" } =
      (Response.badRequest, exChatState)
    ∧ add_registration_id_post exVerify exMember
        { registration_id := none, signature := some "SIG" } =
      (Response.unprocessable, exMember, false)
    ∧ remove_registration_id_post exVerify exMember
        { registration_id := some "tok-1", signature := some "BAD" } =
      (Response.forbidden "invalid signature", exMember, false) := by
  have h := guarded_action_error_outcomes exVerify exChatState 1
    { lrz_id := none, signature := some "SIG" } exMember
    { registration_id := none, signature := some "SIG" }
  have h2 := guarded_action_error_outcomes exVerify exChatState 1
    { lrz_id := none, signature := some "SIG" } exMember
    { registration_id := some "tok-1", signature := some "BAD" }
  exact ⟨(h.1 (Or.inl rfl)).1, (h.2.2.1 rfl).1,
    (h2.2.2.2.1 "tok-1" rfl (by decide)).2⟩

/-- C10: a signature-validated remove-registration-id request for an id not
in the member's list succeeds with 200 and performs no save at all, leaving
the member record exactly as it was; in general a save is performed exactly
when an occurrence of the id was present (and therefore removed). -/
theorem remove_absent_registration_id_no_write
    (verify : String → String → String → Bool) (member : Member)
    (rid sig : String)
    (hval : member_validate_signature verify member (some sig) = true) :
    (rid ∉ member.registration_ids →
      remove_registration_id_post verify member
          { registration_id := some rid, signature := some sig } =
        (Response.ok "ok", member, false))
    ∧ ((remove_registration_id_post verify member
          { registration_id := some rid, signature := some sig }).2.2 = true
        ↔ rid ∈ member.registration_ids) := by
  constructor
  · intro habs
    simp [remove_registration_id_post, registration_post, hval,
      remove_registration_process, habs]
  · by_cases hmem : rid ∈ member.registration_ids <;>
      simp [remove_registration_id_post, registration_post, hval,
        remove_registration_process, hmem]

/-- Witness for C10: removing an id from a member with an empty
registration-id list answers 200 and writes nothing. -/
theorem remove_absent_registration_id_no_write_witness :
    remove_registration_id_post exVerify exMember
        { registration_id := some "tok-1", signature := some "SIG" } =
      (Response.ok "ok", exMember, false) :=
  (remove_absent_registration_id_no_write exVerify exMember "tok-1" "SIG"
    (by decide)).1 (by decide)

/-! ## Key confirmation (`models.PublicKeyConfirmation`,
`views.PublicKeyConfirmationView`) -/

/-- A `PublicKey` row as stored: primary key, key material, owning member
and the `active` flag. -/
structure StoredKey where
  id : Nat
  key_text : String
  member : String
  active : Bool
deriving Repr, DecidableEq

/-- A `PublicKeyConfirmation` row: primary key, the unique random token, the
foreign key of the confirmed `PublicKey` and the creation timestamp
(microseconds, the resolution of a Django datetime). -/
structure Confirmation where
  id : Nat
  confirmation_key : String
  public_key : Nat
  created : Int
deriving Repr, DecidableEq

/-- The state touched by the confirmation endpoint. -/
structure KeyStoreState where
  keys : List StoredKey
  confirmations : List Confirmation
deriving Repr, DecidableEq

/-- `PublicKeyConfirmation.is_expired`:
`timezone.now() - self.created > timedelta(hours=TCA_CONFIRMATION_EXPIRATION_HOURS)`,
with timestamps in microseconds, the unit `timedelta` comparisons reduce
to. -/
def is_expired (expiration_hours : Nat) (created now : Int) : Bool :=
  decide (now - created > (expiration_hours : Int) * 3600 * 1000000)

/-- `PublicKeyConfirmation.confirm`: set the associated key's `active` field
to `True`, save that key, then delete this confirmation row. -/
def Confirmation.confirm (st : KeyStoreState) (c : Confirmation) : KeyStoreState :=
  { keys := st.keys.map
      (fun k => if k.id == c.public_key then { k with active := true } else k),
    confirmations := st.confirmations.filter (fun c2 => c2.id != c.id) }

/-- Embedding of `PublicKeyConfirmationView.get` — the token lookup of the
spec's `lookupByToken` combined with confirmation: 404 when no confirmation
carries the token; when the found confirmation is expired, delete it and
404 (`raise Http404`); otherwise read the associated key (for the response
body) and `confirm()`. -/
def confirmation_view_get (st : KeyStoreState) (now : Int) (window : Nat)
    (token : String) : Response × KeyStoreState :=
  match st.confirmations.find? (fun c => c.confirmation_key == token) with
  | none => (Response.notFound, st)
  | some c =>
    if is_expired window c.created now then
      (Response.notFound,
       { st with confirmations := st.confirmations.filter (fun c2 => c2.id != c.id) })
    else
      (Response.ok
        (match st.keys.find? (fun k => k.id == c.public_key) with
         | some k => k.key_text
         | none => ""),
       Confirmation.confirm st c)

/-- C9: `is_expired` holds exactly when the elapsed time strictly exceeds
the configured window of `expiration_hours` hours; elapsed time exactly
equal to the window is not expired, and one unit (microsecond) past it
is. -/
theorem confirmation_expiry_boundary (H : Nat) (created now : Int) :
    (is_expired H created now = true ↔ now - created > (H : Int) * 3600 * 1000000)
    ∧ (now - created = (H : Int) * 3600 * 1000000 →
        is_expired H created now = false)
    ∧ (now - created = (H : Int) * 3600 * 1000000 + 1 →
        is_expired H created now = true) := by
  refine ⟨by simp [is_expired], fun h => ?_, fun h => ?_⟩
  · simp only [is_expired, h, decide_eq_false_iff_not]
    omega
  · simp only [is_expired, h, decide_eq_true_iff]
    omega

/-- Witness for C9: with a two-hour window and creation at time zero, the
exact boundary instant is not expired and one microsecond later is. -/
theorem confirmation_expiry_boundary_witness :
    is_expired 2 0 7200000000 = false ∧ is_expired 2 0 7200000001 = true :=
  ⟨(confirmation_expiry_boundary 2 0 7200000000).2.1 (by norm_num),
   (confirmation_expiry_boundary 2 0 7200000001).2.2 (by norm_num)⟩

/-- After deleting the found confirmation by primary key, no confirmation
with its token remains, provided tokens are unique (the model's database
constraint `unique=True` on `confirmation_key`). -/
theorem find_after_delete_none (st : KeyStoreState) (token : String)
    (c : Confirmation)
    (huniq : st.confirmations.Pairwise
      (fun a b => a.confirmation_key ≠ b.confirmation_key))
    (hfind : st.confirmations.find? (fun x => x.confirmation_key == token) = some c) :
    (st.confirmations.filter (fun c2 => c2.id != c.id)).find?
      (fun x => x.confirmation_key == token) = none := by
  have hcmem : c ∈ st.confirmations := List.mem_of_find?_eq_some hfind
  have hctok : c.confirmation_key = token := by
    simpa using List.find?_some hfind
  rw [List.find?_eq_none]
  intro x hx
  have hx' := List.mem_filter.mp hx
  have hne : x ≠ c := by
    intro heq
    subst heq
    simpa using hx'.2
  have hsymm : Symmetric (fun a b : Confirmation =>
      a.confirmation_key ≠ b.confirmation_key) := fun a b h => (Ne.symm h)
  have := huniq.forall hsymm hx'.1 hcmem hne
  simp [← hctok, this]

/-- C7: confirming a confirmation activates exactly the associated key (the
key rows with the confirmed id become active, every key row keeps its id and
the others keep their `active` flag), and deletes the confirmation row, so
that a subsequent lookup of the same token reports not-found; the
confirmation view on a live token does exactly this and answers 200. -/
theorem confirm_then_lookup (st : KeyStoreState) (now : Int) (window : Nat)
    (c : Confirmation)
    (huniq : st.confirmations.Pairwise
      (fun a b => a.confirmation_key ≠ b.confirmation_key))
    (hfind : st.confirmations.find?
      (fun x => x.confirmation_key == c.confirmation_key) = some c)
    (hlive : is_expired window c.created now = false) :
    ((confirmation_view_get st now window c.confirmation_key).2 =
        Confirmation.confirm st c)
    ∧ (∃ b, (confirmation_view_get st now window c.confirmation_key).1 =
        Response.ok b)
    ∧ (∀ k ∈ (Confirmation.confirm st c).keys, k.id = c.public_key →
        k.active = true)
    ∧ (∀ k ∈ st.keys, k.id = c.public_key →
        { k with active := true } ∈ (Confirmation.confirm st c).keys)
    ∧ ((Confirmation.confirm st c).confirmations.find?
        (fun x => x.confirmation_key == c.confirmation_key) = none)
    ∧ ((confirmation_view_get (Confirmation.confirm st c) now window
        c.confirmation_key).1 = Response.notFound) := by
  have hnone := find_after_delete_none st c.confirmation_key c huniq hfind
  refine ⟨?_, ?_, ?_, ?_, hnone, ?_⟩
  · simp [confirmation_view_get, hfind, hlive]
  · refine ⟨(match st.keys.find? (fun k => k.id == c.public_key) with
      | some k => k.key_text
      | none => ""), ?_⟩
    simp [confirmation_view_get, hfind, hlive]
  · intro k hk hkid
    simp only [Confirmation.confirm, List.mem_map] at hk
    obtain ⟨k0, _, rfl⟩ := hk
    by_cases h0 : k0.id == c.public_key
    · simp [h0]
    · rw [if_neg h0] at hkid ⊢
      exact absurd (by simpa using hkid) (by simpa using h0)
  · intro k hk hkid
    simp only [Confirmation.confirm, List.mem_map]
    exact ⟨k, hk, by simp [hkid]⟩
  · simp [confirmation_view_get, Confirmation.confirm, hnone]

/-- C8: when the confirmation found for a token is expired at lookup time,
the view deletes it, leaves every key row untouched (the key is never
activated), and answers exactly the not-found response that a missing token
produces. -/
theorem expired_lookup (st : KeyStoreState) (now : Int) (window : Nat)
    (token : String) (c : Confirmation)
    (hfind : st.confirmations.find? (fun x => x.confirmation_key == token) = some c)
    (hexp : is_expired window c.created now = true) :
    (confirmation_view_get st now window token =
      (Response.notFound,
       { st with confirmations := st.confirmations.filter (fun c2 => c2.id != c.id) }))
    ∧ ((confirmation_view_get st now window token).2.keys = st.keys)
    ∧ (∀ st2 : KeyStoreState,
        st2.confirmations.find? (fun x => x.confirmation_key == token) = none →
        confirmation_view_get st2 now window token = (Response.notFound, st2)) := by
  refine ⟨?_, ?_, fun st2 h2 => ?_⟩
  · simp [confirmation_view_get, hfind, hexp]
  · simp [confirmation_view_get, hfind, hexp]
  · simp [confirmation_view_get, h2]

/-- An inactive stored key and a confirmation for it, used to evaluate the
confirmation theorems. -/
def exStoredKey : StoredKey where
  id := 1
  key_text := "KEYTEXT"
  member := "ab12345"
  active := false

/-- The confirmation row for `exStoredKey`. -/
def exConfirmation : Confirmation where
  id := 1
  confirmation_key := "TOKEN"
  public_key := 1
  created := 0

/-- The key-store state holding `exStoredKey` and `exConfirmation`. -/
def exKeyStore : KeyStoreState where
  keys := [exStoredKey]
  confirmations := [exConfirmation]

/-- Witness for C7: confirming the concrete live token and looking it up
again reports not-found, with the key now active. -/
theorem confirm_then_lookup_witness :
    (confirmation_view_get (Confirmation.confirm exKeyStore exConfirmation)
      0 2 "TOKEN").1 = Response.notFound := by
  have h := confirm_then_lookup exKeyStore 0 2 exConfirmation
    (by simp [exKeyStore]) (by decide) (by decide)
  exact h.2.2.2.2.2

/-- Witness for C8: looking up the concrete token one microsecond past its
window deletes it, keeps the key table unchanged and reports not-found. -/
theorem expired_lookup_witness :
    confirmation_view_get exKeyStore 7200000001 2 "TOKEN" =
      (Response.notFound, { keys := [exStoredKey], confirmations := [] }) := by
  have h := expired_lookup exKeyStore 7200000001 2 "TOKEN" exConfirmation
    (by decide) (by decide)
  rw [h.1]
  decide

end TCA
